import Mathlib

/-!
Verification of the AWS runbook generator (`runbook_orchestrator.py`).

The development shallowly embeds the orchestrator: the mutable generator
object (`AWSRunbookGenerator`) becomes an explicit `Gen` state threaded
through the collector functions, the AWS/boto3 collaborators become a
`Behavior` record giving the outcome of every provider call (a call can
return a payload, raise an exception carrying a message, or never return),
and the produced Word document becomes a list of abstract blocks.
Provider-call activity is recorded in an event trace so that claims about
credential resolution and scheduling can be stated.
-/

namespace Runbook

/-- A scalar value stored in the collected-data dictionaries (Python
str / int / bool). -/
inductive Val where
  | s (v : String)
  | n (v : Nat)
  | b (v : Bool)
deriving DecidableEq

/-- One record of a collector payload: a Python dict of field name to
scalar value, in insertion order. -/
abbrev DataRecord := List (String × Val)

/-- A value inside a collector's entry dict: a scalar, a list of records,
or a list of strings (the account aliases). -/
inductive EVal where
  | v (x : Val)
  | recs (rs : List DataRecord)
  | strs (ss : List String)
deriving DecidableEq

/-- The dict a collector stores into `self.data[key]`, in insertion
order. -/
abbrev Entry := List (String × EVal)

/-- `\x7b'error': str(e)\x7d` — the error entry most collectors record. -/
def plainError (e : String) : Entry := [("error", EVal.v (Val.s e))]

/-- Outcome of one provider call: it returns a payload, raises an
exception rendered as `str(e)`, or never returns (`hang`: the blocking
call does not come back). -/
inductive Outcome (α : Type) where
  | ok (a : α)
  | exn (msg : String)
  | hang
deriving DecidableEq

/-- Response of `sts.get_caller_identity`: `Account` is always present,
`UserId` and `Arn` are read with `.get(_, 'N/A')`. -/
structure Identity where
  account : String
  userId : Option String
  arn : Option String
deriving DecidableEq

/-- Outcome of `organizations.describe_organization`: success, the
`AWSOrganizationsNotInUseException` client error, any other
`ClientError`, any other exception, or a call that never returns. -/
inductive OrgResp where
  | ok (orgId masterAccountId featureSet : String)
  | notInUse
  | clientError (msg : String)
  | exn (msg : String)
  | hang
deriving DecidableEq

/-- One VPC from `ec2.describe_vpcs` (fields the source reads). -/
structure Vpc where
  vpcId : String
  cidrBlock : String
  state : String
  isDefault : Option Bool
deriving DecidableEq

/-- One hosted zone from `route53.list_hosted_zones`. -/
structure Zone where
  name : String
  id : String
  recordCount : Nat
deriving DecidableEq

/-- One EC2 instance from `ec2.describe_instances` (fields the source
reads; optional fields are read with `.get(_, 'N/A')`). -/
structure Ec2Inst where
  instanceId : String
  instanceType : String
  state : String
  launchTime : Option String
  privateIp : Option String
  publicIp : Option String
deriving DecidableEq

/-- A reservation groups instances; the source flattens the nesting. -/
abbrev Reservation := List Ec2Inst

/-- One RDS instance from `rds.describe_db_instances`. -/
structure DbInst where
  identifier : String
  engine : String
  status : String
  endpointAddress : Option String
  instanceClass : String
deriving DecidableEq

/-- One REST API from `apigateway.get_rest_apis`. -/
structure RestApi where
  id : String
  name : String
  createdDate : Option String
deriving DecidableEq

/-- One CloudFront distribution from `cloudfront.list_distributions`. -/
structure Distribution where
  id : String
  domainName : String
  status : String
  enabled : Bool
deriving DecidableEq

/-- One Lambda function from `lambda.list_functions`. -/
structure LambdaFn where
  functionName : String
  runtime : Option String
  handler : Option String
  lastModified : Option String
deriving DecidableEq

/-- One backup plan from `backup.list_backup_plans`. -/
structure BackupPlan where
  backupPlanId : String
  backupPlanName : String
  creationDate : Option String
deriving DecidableEq

/-- One EventBridge rule from `events.list_rules`. -/
structure EventRule where
  name : String
  state : Option String
  eventPattern : Option String
deriving DecidableEq

/-- One load balancer from `elbv2.describe_load_balancers`. -/
structure LoadBalancer where
  name : String
  type' : String
  scheme : String
  stateCode : String
  dnsName : String
deriving DecidableEq

/-- One IAM Identity Center instance from `sso-admin.list_instances`. -/
structure SsoInst where
  instanceArn : String
  identityStoreId : String
deriving DecidableEq

/-- The outcome of every provider call the run can make.  The subnet and
peering responses are modelled by the only thing the source reads from
them, the length of their result lists; likewise the landing-zone list.
`list_services` is per cluster ARN.  `setup_identity` and
`summary_identity` are the two separate `get_caller_identity` calls made
by `setup_aws_session` and `collect_account_summary`. -/
structure Behavior where
  setup_identity : Outcome Identity
  summary_identity : Outcome Identity
  list_account_aliases : Outcome (List String)
  describe_organization : OrgResp
  list_landing_zones : Outcome Nat
  describe_vpcs : Outcome (List Vpc)
  describe_subnets : Outcome Nat
  describe_vpc_peering_connections : Outcome Nat
  list_hosted_zones : Outcome (List Zone)
  describe_instances : Outcome (List Reservation)
  describe_db_instances : Outcome (List DbInst)
  get_rest_apis : Outcome (List RestApi)
  list_distributions : Outcome (Option (List Distribution))
  list_functions : Outcome (List LambdaFn)
  list_topics : Outcome (List String)
  list_backup_plans : Outcome (List BackupPlan)
  list_rules : Outcome (List EventRule)
  describe_load_balancers : Outcome (List LoadBalancer)
  list_clusters : Outcome (List String)
  list_services : String → Outcome (List String)
  list_instances_sso : Outcome (List SsoInst)

/-- Observable events of a run: creating the boto3 session (credential
resolution), a provider API call made with a given session, and the
orchestration loop entering / leaving one collection method. -/
inductive Ev where
  | sessionCreate (sid : Nat)
  | call (svc op : String) (sid : Nat)
  | start (methodName : String)
  | fin (methodName : String)
deriving DecidableEq

/-- The generator object state (`self`): the cached session, the account
id and display name, the collected data dict, plus the event trace of
collaborator calls made so far. -/
structure Gen where
  session : Option Nat
  account_id : Option String
  account_name : Option String
  data : List (String × Entry)
  trace : List Ev
deriving DecidableEq

/-- The initial generator state (`__init__`). -/
def Gen.init : Gen := ⟨none, none, none, [], []⟩

/-- Python dict assignment `d[k] = e`: replace in place if the key
exists, else append. -/
def setKey (d : List (String × Entry)) (k : String) (e : Entry) :
    List (String × Entry) :=
  if d.any (fun p => p.1 = k) then
    d.map (fun p => if p.1 = k then (k, e) else p)
  else d ++ [(k, e)]

/-- `self.data[k] = e`. -/
def Gen.setData (g : Gen) (k : String) (e : Entry) : Gen :=
  { g with data := setKey g.data k e }

/-- Append one event to the trace. -/
def Gen.emit (g : Gen) (e : Ev) : Gen := { g with trace := g.trace ++ [e] }

/-- A provider call made through `self.session.client(svc)`; the session
is always set by `setup_aws_session` before any collector runs. -/
def Gen.callEv (g : Gen) (svc op : String) : Gen :=
  g.emit (Ev.call svc op (g.session.getD 0))

/-- Result of one collection method: it returns (state updated) or the
blocking provider call inside it never returns. -/
inductive Res where
  | next (g : Gen)
  | hung (g : Gen)
deriving DecidableEq

/-- Shared shape of the single-call collectors: make one provider call;
on success store `f payload` under `key`, on an exception store
`errF (str e)`, and propagate a call that never returns. -/
def simpleCollect {α : Type} (svc op key : String) (f : α → Entry)
    (errF : String → Entry) (o : Outcome α) (g : Gen) : Res :=
  let g := g.callEv svc op
  match o with
  | Outcome.hang => Res.hung g
  | Outcome.exn e => Res.next (g.setData key (errF e))
  | Outcome.ok a => Res.next (g.setData key (f a))

/-- `collect_account_summary`: `get_caller_identity`, then
`list_account_aliases`; on success stores the summary and then sets
`self.account_name` from the first alias or `AWS-\x7baccount_id\x7d`. -/
def collect_account_summary (b : Behavior) (g : Gen) : Res :=
  let g := g.callEv "sts" "get_caller_identity"
  match b.summary_identity with
  | Outcome.hang => Res.hung g
  | Outcome.exn e => Res.next (g.setData "account_summary" (plainError e))
  | Outcome.ok ident =>
    let g := g.callEv "iam" "list_account_aliases"
    match b.list_account_aliases with
    | Outcome.hang => Res.hung g
    | Outcome.exn e => Res.next (g.setData "account_summary" (plainError e))
    | Outcome.ok aliases =>
      let entry : Entry :=
        [("account_id", EVal.v (Val.s ident.account)),
         ("user_id", EVal.v (Val.s (ident.userId.getD "N/A"))),
         ("arn", EVal.v (Val.s (ident.arn.getD "N/A"))),
         ("aliases", EVal.strs aliases)]
      let g := g.setData "account_summary" entry
      match aliases with
      | a :: _ => Res.next { g with account_name := some a }
      | [] =>
        Res.next { g with
          account_name := some ("AWS-" ++ g.account_id.getD "None") }

/-- `collect_organizations`: the `AWSOrganizationsNotInUseException`
client error stores a status note; every other failure stores the
stringified exception. -/
def collect_organizations (b : Behavior) (g : Gen) : Res :=
  let g := g.callEv "organizations" "describe_organization"
  match b.describe_organization with
  | OrgResp.hang => Res.hung g
  | OrgResp.ok oid mid fs =>
    Res.next (g.setData "organizations"
      [("organization_id", EVal.v (Val.s oid)),
       ("master_account_id", EVal.v (Val.s mid)),
       ("feature_set", EVal.v (Val.s fs))])
  | OrgResp.notInUse =>
    Res.next (g.setData "organizations"
      [("status", EVal.v (Val.s "Não está em uma organização"))])
  | OrgResp.clientError e =>
    Res.next (g.setData "organizations" (plainError e))
  | OrgResp.exn e =>
    Res.next (g.setData "organizations" (plainError e))

/-- Payload entry of `collect_control_tower`. -/
def ctEntry (n : Nat) : Entry :=
  [("status", EVal.v (Val.s (if n ≠ 0 then "Ativo" else "Inativo"))),
   ("landing_zones", EVal.v (Val.n n))]

/-- Error entry of `collect_control_tower`: a status field next to the
stringified exception. -/
def ctErr (e : String) : Entry :=
  [("status", EVal.v (Val.s "Não disponível")),
   ("error", EVal.v (Val.s e))]

/-- `collect_control_tower`. -/
def collect_control_tower (b : Behavior) : Gen → Res :=
  simpleCollect "controltower" "list_landing_zones" "control_tower" ctEntry
    ctErr b.list_landing_zones

/-- One VPC record of the `vpc_summary` payload. -/
def vpcRecord (v : Vpc) : DataRecord :=
  [("vpc_id", Val.s v.vpcId), ("cidr_block", Val.s v.cidrBlock),
   ("state", Val.s v.state), ("is_default", Val.b (v.isDefault.getD false))]

/-- `collect_vpc_summary`: three sequential EC2 calls inside one try
block; the first exception aborts to the handler. -/
def collect_vpc_summary (b : Behavior) (g : Gen) : Res :=
  let g := g.callEv "ec2" "describe_vpcs"
  match b.describe_vpcs with
  | Outcome.hang => Res.hung g
  | Outcome.exn e => Res.next (g.setData "vpc_summary" (plainError e))
  | Outcome.ok vpcs =>
    let g := g.callEv "ec2" "describe_subnets"
    match b.describe_subnets with
    | Outcome.hang => Res.hung g
    | Outcome.exn e => Res.next (g.setData "vpc_summary" (plainError e))
    | Outcome.ok nSubnets =>
      let g := g.callEv "ec2" "describe_vpc_peering_connections"
      match b.describe_vpc_peering_connections with
      | Outcome.hang => Res.hung g
      | Outcome.exn e => Res.next (g.setData "vpc_summary" (plainError e))
      | Outcome.ok nPeering =>
        Res.next (g.setData "vpc_summary"
          [("total_vpcs", EVal.v (Val.n vpcs.length)),
           ("total_subnets", EVal.v (Val.n nSubnets)),
           ("peering_connections", EVal.v (Val.n nPeering)),
           ("vpcs", EVal.recs (vpcs.map vpcRecord))])

/-- One zone record of the `route53` payload. -/
def zoneRecord (z : Zone) : DataRecord :=
  [("name", Val.s z.name), ("id", Val.s z.id),
   ("record_count", Val.n z.recordCount)]

/-- Payload entry of `collect_route53`. -/
def route53Entry (zones : List Zone) : Entry :=
  [("total_zones", EVal.v (Val.n zones.length)),
   ("zones", EVal.recs (zones.map zoneRecord))]

/-- `collect_route53`. -/
def collect_route53 (b : Behavior) : Gen → Res :=
  simpleCollect "route53" "list_hosted_zones" "route53" route53Entry
    plainError b.list_hosted_zones

/-- One instance record of the `ec2_instances` payload. -/
def ec2Record (i : Ec2Inst) : DataRecord :=
  [("instance_id", Val.s i.instanceId),
   ("instance_type", Val.s i.instanceType),
   ("state", Val.s i.state),
   ("launch_time", Val.s (i.launchTime.getD "N/A")),
   ("private_ip", Val.s (i.privateIp.getD "N/A")),
   ("public_ip", Val.s (i.publicIp.getD "N/A"))]

/-- Payload entry of `collect_ec2_instances`: the reservation nesting is
flattened in order. -/
def ec2Entry (rs : List Reservation) : Entry :=
  let instances := rs.flatMap (fun r => r.map ec2Record)
  [("total_instances", EVal.v (Val.n instances.length)),
   ("instances", EVal.recs instances)]

/-- `collect_ec2_instances`. -/
def collect_ec2_instances (b : Behavior) : Gen → Res :=
  simpleCollect "ec2" "describe_instances" "ec2_instances" ec2Entry
    plainError b.describe_instances

/-- One instance record of the `rds` payload. -/
def rdsRecord (d : DbInst) : DataRecord :=
  [("identifier", Val.s d.identifier), ("engine", Val.s d.engine),
   ("status", Val.s d.status),
   ("endpoint", Val.s (d.endpointAddress.getD "N/A")),
   ("instance_class", Val.s d.instanceClass)]

/-- Payload entry of `collect_rds`. -/
def rdsEntry (ds : List DbInst) : Entry :=
  [("total_instances", EVal.v (Val.n ds.length)),
   ("instances", EVal.recs (ds.map rdsRecord))]

/-- `collect_rds`. -/
def collect_rds (b : Behavior) : Gen → Res :=
  simpleCollect "rds" "describe_db_instances" "rds" rdsEntry
    plainError b.describe_db_instances

/-- Payload entry of `collect_api_gateway`. -/
def apiGatewayEntry (apis : List RestApi) : Entry :=
  [("total_apis", EVal.v (Val.n apis.length)),
   ("apis", EVal.recs (apis.map (fun a =>
     [("id", Val.s a.id), ("name", Val.s a.name),
      ("created_date", Val.s (a.createdDate.getD "N/A"))])))]

/-- `collect_api_gateway`. -/
def collect_api_gateway (b : Behavior) : Gen → Res :=
  simpleCollect "apigateway" "get_rest_apis" "api_gateway" apiGatewayEntry
    plainError b.get_rest_apis

/-- Payload entry of `collect_cloudfront`: a missing `Items` key yields
an empty distribution list. -/
def cloudfrontEntry (items : Option (List Distribution)) : Entry :=
  let ds := (items.getD []).map (fun d =>
    [("id", Val.s d.id), ("domain_name", Val.s d.domainName),
     ("status", Val.s d.status), ("enabled", Val.b d.enabled)])
  [("total_distributions", EVal.v (Val.n ds.length)),
   ("distributions", EVal.recs ds)]

/-- `collect_cloudfront`. -/
def collect_cloudfront (b : Behavior) : Gen → Res :=
  simpleCollect "cloudfront" "list_distributions" "cloudfront"
    cloudfrontEntry plainError b.list_distributions

/-- Payload entry of `collect_lambda`. -/
def lambdaEntry (fs : List LambdaFn) : Entry :=
  [("total_functions", EVal.v (Val.n fs.length)),
   ("functions", EVal.recs (fs.map (fun f =>
     [("name", Val.s f.functionName),
      ("runtime", Val.s (f.runtime.getD "N/A")),
      ("handler", Val.s (f.handler.getD "N/A")),
      ("last_modified", Val.s (f.lastModified.getD "N/A"))])))]

/-- `collect_lambda`. -/
def collect_lambda (b : Behavior) : Gen → Res :=
  simpleCollect "lambda" "list_functions" "lambda" lambdaEntry
    plainError b.list_functions

/-- `arn.split(sep)[-1]`. -/
def lastSplit (sep s : String) : String :=
  ((s.splitOn sep).getLast?).getD s

/-- Payload entry of `collect_sns`: the topic name is the last `:`
component of the ARN. -/
def snsEntry (arns : List String) : Entry :=
  [("total_topics", EVal.v (Val.n arns.length)),
   ("topics", EVal.recs (arns.map (fun arn =>
     [("name", Val.s (lastSplit ":" arn)), ("arn", Val.s arn)])))]

/-- `collect_sns`. -/
def collect_sns (b : Behavior) : Gen → Res :=
  simpleCollect "sns" "list_topics" "sns" snsEntry plainError b.list_topics

/-- Payload entry of `collect_backup`. -/
def backupEntry (ps : List BackupPlan) : Entry :=
  [("total_plans", EVal.v (Val.n ps.length)),
   ("plans", EVal.recs (ps.map (fun p =>
     [("id", Val.s p.backupPlanId), ("name", Val.s p.backupPlanName),
      ("creation_date", Val.s (p.creationDate.getD "N/A"))])))]

/-- `collect_backup`. -/
def collect_backup (b : Behavior) : Gen → Res :=
  simpleCollect "backup" "list_backup_plans" "backup" backupEntry
    plainError b.list_backup_plans

/-- Payload entry of `collect_eventbridge`. -/
def eventbridgeEntry (rules : List EventRule) : Entry :=
  [("total_rules", EVal.v (Val.n rules.length)),
   ("rules", EVal.recs (rules.map (fun r =>
     [("name", Val.s r.name), ("state", Val.s (r.state.getD "N/A")),
      ("event_pattern", Val.s (r.eventPattern.getD "N/A"))])))]

/-- `collect_eventbridge`. -/
def collect_eventbridge (b : Behavior) : Gen → Res :=
  simpleCollect "events" "list_rules" "eventbridge" eventbridgeEntry
    plainError b.list_rules

/-- Payload entry of `collect_load_balancers`. -/
def loadBalancersEntry (lbs : List LoadBalancer) : Entry :=
  [("total_load_balancers", EVal.v (Val.n lbs.length)),
   ("load_balancers", EVal.recs (lbs.map (fun lb =>
     [("name", Val.s lb.name), ("type", Val.s lb.type'),
      ("scheme", Val.s lb.scheme), ("state", Val.s lb.stateCode),
      ("dns_name", Val.s lb.dnsName)])))]

/-- `collect_load_balancers`. -/
def collect_load_balancers (b : Behavior) : Gen → Res :=
  simpleCollect "elbv2" "describe_load_balancers" "load_balancers"
    loadBalancersEntry plainError b.describe_load_balancers

/-- One cluster record of the `ecs` payload. -/
def ecsRecord (arn : String) (services : List String) : DataRecord :=
  [("name", Val.s (lastSplit "/" arn)), ("arn", Val.s arn),
   ("services_count", Val.n services.length)]

/-- Result of the per-cluster loop inside `collect_ecs`. -/
inductive LoopRes where
  | done (g : Gen) (recs : List DataRecord)
  | failed (g : Gen) (msg : String)
  | hung (g : Gen)
deriving DecidableEq

/-- The per-cluster loop of `collect_ecs`: one `list_services` call per
cluster ARN; an exception escapes the loop into the method's handler. -/
def ecsLoop (b : Behavior) : List String → Gen → List DataRecord → LoopRes
  | [], g, acc => LoopRes.done g acc
  | arn :: rest, g, acc =>
    let g := g.callEv "ecs" "list_services"
    match b.list_services arn with
    | Outcome.hang => LoopRes.hung g
    | Outcome.exn e => LoopRes.failed g e
    | Outcome.ok services => ecsLoop b rest g (acc ++ [ecsRecord arn services])

/-- `collect_ecs`: `list_clusters`, then `list_services` per cluster;
any exception anywhere yields the single error entry. -/
def collect_ecs (b : Behavior) (g : Gen) : Res :=
  let g := g.callEv "ecs" "list_clusters"
  match b.list_clusters with
  | Outcome.hang => Res.hung g
  | Outcome.exn e => Res.next (g.setData "ecs" (plainError e))
  | Outcome.ok arns =>
    match ecsLoop b arns g [] with
    | LoopRes.hung g => Res.hung g
    | LoopRes.failed g e => Res.next (g.setData "ecs" (plainError e))
    | LoopRes.done g recs =>
      Res.next (g.setData "ecs"
        [("total_clusters", EVal.v (Val.n recs.length)),
         ("clusters", EVal.recs recs)])

/-- Payload entry of `collect_iam_identity_center`. -/
def ssoEntry (is' : List SsoInst) : Entry :=
  [("total_instances", EVal.v (Val.n is'.length)),
   ("instances", EVal.recs (is'.map (fun i =>
     [("instance_arn", Val.s i.instanceArn),
      ("identity_store_id", Val.s i.identityStoreId)]))),
   ("status", EVal.v (Val.s (if is'.length ≠ 0 then "Ativo" else "Inativo")))]

/-- Error entry of `collect_iam_identity_center`: a status field next to
the stringified exception. -/
def ssoErr (e : String) : Entry :=
  [("status", EVal.v (Val.s "Não disponível")),
   ("error", EVal.v (Val.s e))]

/-- `collect_iam_identity_center`. -/
def collect_iam_identity_center (b : Behavior) : Gen → Res :=
  simpleCollect "sso-admin" "list_instances" "iam_identity_center" ssoEntry
    ssoErr b.list_instances_sso

/-- The Collector Registry: the `collection_methods` list of
`collect_all_data`, with each method's `__name__`. Registration order is
the order collectors execute. -/
def collection_methods : List (String × (Behavior → Gen → Res)) :=
  [("collect_account_summary", collect_account_summary),
   ("collect_organizations", collect_organizations),
   ("collect_control_tower", collect_control_tower),
   ("collect_vpc_summary", collect_vpc_summary),
   ("collect_route53", collect_route53),
   ("collect_ec2_instances", collect_ec2_instances),
   ("collect_rds", collect_rds),
   ("collect_api_gateway", collect_api_gateway),
   ("collect_cloudfront", collect_cloudfront),
   ("collect_lambda", collect_lambda),
   ("collect_sns", collect_sns),
   ("collect_backup", collect_backup),
   ("collect_eventbridge", collect_eventbridge),
   ("collect_load_balancers", collect_load_balancers),
   ("collect_ecs", collect_ecs),
   ("collect_iam_identity_center", collect_iam_identity_center)]

/-- The sequential loop of `collect_all_data`: each method runs to
completion before the next starts; a blocking call that never returns
stops the whole loop.  (The loop's own try/except is unreachable here:
every method already catches all exceptions internally.) -/
def runMethods (b : Behavior) :
    List (String × (Behavior → Gen → Res)) → Gen → Res
  | [], g => Res.next g
  | (n, m) :: rest, g =>
    match m b (g.emit (Ev.start n)) with
    | Res.next g' => runMethods b rest (g'.emit (Ev.fin n))
    | Res.hung g' => Res.hung g'

/-- `collect_all_data`. -/
def collect_all_data (b : Behavior) (g : Gen) : Res :=
  runMethods b collection_methods g

/-- Result of `setup_aws_session` / of the data-collection pipeline. -/
inductive SetupRes where
  | ok (g : Gen)
  | failed (g : Gen)
  | hung (g : Gen)
deriving DecidableEq

/-- `setup_aws_session`: create the boto3 session (credential
resolution; cached in `self.session`), then a `get_caller_identity`
call; any exception returns `False`. -/
def setup_aws_session (b : Behavior) (g : Gen) : SetupRes :=
  let g := { g.emit (Ev.sessionCreate 1) with session := some 1 }
  let g := g.callEv "sts" "get_caller_identity"
  match b.setup_identity with
  | Outcome.hang => SetupRes.hung g
  | Outcome.exn _ => SetupRes.failed g
  | Outcome.ok ident => SetupRes.ok { g with account_id := some ident.account }

/-- The data-collection pipeline of `run`: `setup_aws_session` followed,
on success, by `collect_all_data`. -/
def runGen (b : Behavior) : SetupRes :=
  match setup_aws_session b Gen.init with
  | SetupRes.hung g => SetupRes.hung g
  | SetupRes.failed g => SetupRes.failed g
  | SetupRes.ok g =>
    match collect_all_data b g with
    | Res.hung g => SetupRes.hung g
    | Res.next g => SetupRes.ok g

/-- The generator state reached by the pipeline, in every outcome. -/
def SetupRes.gen : SetupRes → Gen
  | SetupRes.ok g => g
  | SetupRes.failed g => g
  | SetupRes.hung g => g

/-- The collected data dict after the pipeline. -/
def runGenData (b : Behavior) : List (String × Entry) := (runGen b).gen.data

/-- The event trace after the pipeline. -/
def runGenTrace (b : Behavior) : List Ev := (runGen b).gen.trace

/-- Whether the pipeline never returns (a blocking call hangs). -/
def SetupRes.isHung : SetupRes → Bool
  | SetupRes.hung _ => true
  | _ => false

/-- No provider call of the behavior hangs: every call of the run
returns or raises. -/
def Behavior.NoHang (b : Behavior) : Prop :=
  b.setup_identity ≠ Outcome.hang ∧
  b.summary_identity ≠ Outcome.hang ∧
  b.list_account_aliases ≠ Outcome.hang ∧
  b.describe_organization ≠ OrgResp.hang ∧
  b.list_landing_zones ≠ Outcome.hang ∧
  b.describe_vpcs ≠ Outcome.hang ∧
  b.describe_subnets ≠ Outcome.hang ∧
  b.describe_vpc_peering_connections ≠ Outcome.hang ∧
  b.list_hosted_zones ≠ Outcome.hang ∧
  b.describe_instances ≠ Outcome.hang ∧
  b.describe_db_instances ≠ Outcome.hang ∧
  b.get_rest_apis ≠ Outcome.hang ∧
  b.list_distributions ≠ Outcome.hang ∧
  b.list_functions ≠ Outcome.hang ∧
  b.list_topics ≠ Outcome.hang ∧
  b.list_backup_plans ≠ Outcome.hang ∧
  b.list_rules ≠ Outcome.hang ∧
  b.describe_load_balancers ≠ Outcome.hang ∧
  b.list_clusters ≠ Outcome.hang ∧
  (∀ arn, b.list_services arn ≠ Outcome.hang) ∧
  b.list_instances_sso ≠ Outcome.hang

/-- The data keys the sixteen collectors write, in registration order. -/
def registryKeys : List String :=
  ["account_summary", "organizations", "control_tower", "vpc_summary",
   "route53", "ec2_instances", "rds", "api_gateway", "cloudfront",
   "lambda", "sns", "backup", "eventbridge", "load_balancers", "ecs",
   "iam_identity_center"]

/-! ## Document rendering (`generate_document` and helpers) -/

/-- A block of the produced document: a paragraph, a table (header row
plus data rows of cell text), a page break, or an inline image. -/
inductive Block where
  | para (text : String)
  | table (headers : List String) (rows : List (List String))
  | pageBreak
  | image (name : String)
deriving DecidableEq

/-- Python `str` on the scalar values the document renders. -/
def pyStr : Val → String
  | Val.s v => v
  | Val.n v => toString v
  | Val.b v => if v then "True" else "False"

/-- Python `str` on an optional value rendered inside an f-string
(`None` when absent). -/
def pyOpt (o : Option String) : String := o.getD "None"

/-- Helper for `pyTitle`: Python `str.title()` capitalizes a letter
after a non-letter and lowercases the rest. -/
def titleCaseAux : List Char → Bool → List Char
  | [], _ => []
  | c :: cs, prevAlpha =>
    (if c.isAlpha then (if prevAlpha then c.toLower else c.toUpper) else c)
      :: titleCaseAux cs c.isAlpha

/-- `key.replace('_', ' ').title()`. -/
def pyTitle (s : String) : String :=
  String.mk (titleCaseAux ((s.replace "_" " ").toList) false)

/-- Python `str` on an entry value; the list renderings are unreachable:
the only field the document stringifies this way is `data['error']`,
always a string. -/
def pyStrEV : EVal → String
  | EVal.v x => pyStr x
  | EVal.recs _ => "[...]"
  | EVal.strs _ => "[...]"

/-- Whether an entry value is a Python list. -/
def EVal.isList : EVal → Bool
  | EVal.v _ => false
  | _ => true

/-- The list keys `create_data_table` renders as detailed tables. -/
def listKeyWhitelist : List String :=
  ["instances", "zones", "apis", "distributions", "functions", "topics",
   "plans", "rules", "load_balancers", "clusters"]

/-- Column headers and record keys `create_detailed_table` chooses from
the data type and the first record; `none` models its early returns
(empty list, or a first item that is not a dict — the latter cannot
arise here since items are records). -/
def detailCols (dataType : String) (items : List DataRecord) :
    Option (List String × List String) :=
  match items with
  | [] => none
  | first :: _ =>
    if dataType = "instances" ∧ first.any (fun p => p.1 = "instance_id") then
      some (["Instance ID", "Type", "State", "Private IP", "Public IP"],
            ["instance_id", "instance_type", "state", "private_ip",
             "public_ip"])
    else if dataType = "instances" ∧ first.any (fun p => p.1 = "identifier")
    then
      some (["Identifier", "Engine", "Status", "Endpoint", "Class"],
            ["identifier", "engine", "status", "endpoint", "instance_class"])
    else if dataType = "zones" then
      some (["Name", "ID", "Record Count"], ["name", "id", "record_count"])
    else if dataType = "functions" then
      some (["Name", "Runtime", "Handler", "Last Modified"],
            ["name", "runtime", "handler", "last_modified"])
    else
      some (first.map Prod.fst, first.map Prod.fst)

/-- `str(item.get(key, 'N/A'))`. -/
def renderCell (item : DataRecord) (key : String) : String :=
  match item.find? (fun p => p.1 = key) with
  | some kv => pyStr kv.2
  | none => "N/A"

/-- `create_detailed_table`: header row, the first ten records, and an
omission note when more than ten records exist. -/
def create_detailed_table (dataType : String) (items : List DataRecord) :
    List Block :=
  match detailCols dataType items with
  | none => []
  | some (headers, keys) =>
    [Block.table (headers.map pyTitle)
       ((items.take 10).map (fun item => keys.map (renderCell item)))] ++
    (if 10 < items.length then
       [Block.para ("... e mais " ++ toString (items.length - 10) ++
          " itens")]
     else [])

/-- `create_data_table`: with a list value present, nonempty whitelisted
record lists become detailed tables and scalars become paragraphs (a
nonempty list of plain strings would reach `create_detailed_table` and
be dropped by its non-dict early return); with no list value, one
two-column property table. -/
def create_data_table (data : Entry) : List Block :=
  if data.any (fun p => p.2.isList) then
    data.flatMap (fun p =>
      match p.2 with
      | EVal.recs rs =>
        if rs ≠ [] ∧ p.1 ∈ listKeyWhitelist then create_detailed_table p.1 rs
        else []
      | EVal.strs _ => []
      | EVal.v x => [Block.para (pyTitle p.1 ++ ": " ++ pyStr x)])
  else
    [Block.table ["Propriedade", "Valor"]
      (data.filterMap (fun p =>
        match p.2 with
        | EVal.v x => some [pyTitle p.1, pyStr x]
        | _ => none))]

/-- `add_section`: title, description, then the error paragraph, the
data table, or the data-unavailable note, then a spacing paragraph. -/
def add_section (title description dataKey : String)
    (data : List (String × Entry)) : List Block :=
  [Block.para title, Block.para description] ++
  (match data.find? (fun p => p.1 = dataKey) with
   | some p =>
     match p.2.find? (fun q => q.1 = "error") with
     | some q => [Block.para ("Erro: " ++ pyStrEV q.2)]
     | none => create_data_table p.2
   | none => [Block.para "Dados não disponíveis"]) ++
  [Block.para ""]

/-- The section list of `generate_document`:
(title, description, data key). -/
def section_tuples : List (String × String × String) :=
  [("1. RESUMO DA CONTA", "Informações gerais da conta AWS",
    "account_summary"),
   ("2. AWS ORGANIZATIONS", "Status e configuração do AWS Organizations",
    "organizations"),
   ("3. AWS CONTROL TOWER", "Status do AWS Control Tower", "control_tower"),
   ("4. RESUMO DE VPCs", "Redes virtuais privadas e configurações",
    "vpc_summary"),
   ("5. ROUTE 53 (DNS)", "Domínios e zonas DNS configuradas", "route53"),
   ("6. INSTÂNCIAS EC2", "Servidores virtuais em execução", "ec2_instances"),
   ("7. RDS (BANCO DE DADOS)", "Instâncias de banco de dados", "rds"),
   ("8. API GATEWAY", "APIs registradas e configuradas", "api_gateway"),
   ("9. CLOUDFRONT", "Distribuições CDN ativas", "cloudfront"),
   ("10. LAMBDA FUNCTIONS", "Funções serverless configuradas", "lambda"),
   ("11. SNS (NOTIFICAÇÕES)", "Tópicos de notificação", "sns"),
   ("12. AWS BACKUP", "Planos e políticas de backup", "backup"),
   ("13. EVENTBRIDGE", "Regras de eventos configuradas", "eventbridge"),
   ("14. LOAD BALANCERS", "Balanceadores de carga", "load_balancers"),
   ("15. ECS (CONTAINERS)", "Clusters e serviços de containers", "ecs"),
   ("16. IAM IDENTITY CENTER", "Centro de identidade e SSO",
    "iam_identity_center")]

/-- The rendered sections of the report, keyed by data key: one section
per tuple of `section_tuples`, in that fixed order, whatever the
collected data holds. -/
def report_sections (data : List (String × Entry)) :
    List (String × List Block) :=
  section_tuples.map (fun s => (s.2.2, add_section s.1 s.2.1 s.2.2 data))

/-- The moment `datetime.now()` is read, through the two formats the
source renders it with (`%d/%m/%Y %H:%M` for the cover and
`%Y%m%d_%H%M%S` for the filename). -/
structure Instant where
  display : String
  fileStamp : String
deriving DecidableEq

/-- `add_cover_page`: optional logo, title, account-name subtitle, the
generation timestamp, and a page break. -/
def add_cover_page (g : Gen) (now : Instant) (hasLogo : Bool) :
    List Block :=
  (if hasLogo then [Block.image "logo.png"] else []) ++
  [Block.para "AWS RUNBOOK",
   Block.para ("Conta: " ++ pyOpt g.account_name),
   Block.para ("Gerado em: " ++ now.display),
   Block.pageBreak]

/-- The summary titles of `add_table_of_contents`. -/
def toc_titles : List String :=
  ["1. Resumo da Conta", "2. AWS Organizations", "3. AWS Control Tower",
   "4. Resumo de VPCs", "5. Route 53 (DNS)", "6. Instâncias EC2",
   "7. RDS (Banco de Dados)", "8. API Gateway", "9. CloudFront",
   "10. Lambda Functions", "11. SNS (Notificações)", "12. AWS Backup",
   "13. EventBridge", "14. Load Balancers", "15. ECS (Containers)",
   "16. IAM Identity Center"]

/-- `add_table_of_contents`. -/
def add_table_of_contents : List Block :=
  Block.para "SUMÁRIO" :: (toc_titles.map Block.para ++ [Block.pageBreak])

/-- `generate_document`: cover, table of contents, the sixteen sections,
and the timestamped filename the document is saved under. -/
def generate_document (g : Gen) (now : Instant) (hasLogo : Bool) :
    List Block × String :=
  (add_cover_page g now hasLogo ++ add_table_of_contents ++
     (report_sections g.data).flatMap Prod.snd,
   "runbook_" ++ pyOpt g.account_id ++ "_" ++ now.fileStamp ++ ".docx")

/-- Result of `run`: it finishes with a success flag and, when document
generation was reached, the document and its filename — or it never
returns because a provider call hung. -/
inductive RunRes where
  | finished (g : Gen) (success : Bool) (doc : Option (List Block))
      (filename : Option String)
  | hung (g : Gen)
deriving DecidableEq

/-- `run`: session setup, data collection, document generation.  A
failed setup returns `False` before any collection or rendering. -/
def run (b : Behavior) (now : Instant) (hasLogo : Bool) : RunRes :=
  match runGen b with
  | SetupRes.hung g => RunRes.hung g
  | SetupRes.failed g => RunRes.finished g false none none
  | SetupRes.ok g =>
    let doc := generate_document g now hasLogo
    RunRes.finished g true (some doc.1) (some doc.2)

/-- The process exit status of `main`: `0` after a successful run, `1`
after a failed one, and none at all when the run never returns. -/
def mainExit (b : Behavior) (now : Instant) (hasLogo : Bool) :
    Option Nat :=
  match run b now hasLogo with
  | RunRes.hung _ => none
  | RunRes.finished _ true _ _ => some 0
  | RunRes.finished _ false _ _ => some 1

/-- The number of tasks of the run that reach the `succeeded` terminal
state.  The source schedules exactly one implicit task (its single
account with its default region); the task succeeds exactly when
credential setup succeeds, since every collector failure is absorbed
into the data dict. -/
def tasksSucceeded (b : Behavior) : Nat :=
  match b.setup_identity with
  | Outcome.ok _ => 1
  | _ => 0

/-! ## Normal form of a completed run

Observer functions giving, per collector, the entry it stores and the
provider calls it makes, as a function of the behavior alone; the
`hang` branches return junk and are only used under no-hang
hypotheses. -/

/-- The entry a single-call collector stores for each outcome. -/
def simpleEntry {α : Type} (f : α → Entry) (errF : String → Entry) :
    Outcome α → Entry
  | Outcome.ok a => f a
  | Outcome.exn e => errF e
  | Outcome.hang => []

/-- The entry `collect_account_summary` stores. -/
def accountSummaryEntry (b : Behavior) : Entry :=
  match b.summary_identity with
  | Outcome.hang => []
  | Outcome.exn e => plainError e
  | Outcome.ok ident =>
    match b.list_account_aliases with
    | Outcome.hang => []
    | Outcome.exn e => plainError e
    | Outcome.ok aliases =>
      [("account_id", EVal.v (Val.s ident.account)),
       ("user_id", EVal.v (Val.s (ident.userId.getD "N/A"))),
       ("arn", EVal.v (Val.s (ident.arn.getD "N/A"))),
       ("aliases", EVal.strs aliases)]

/-- The account name after `collect_account_summary` runs on state `g`. -/
def accountNameAfter (b : Behavior) (g : Gen) : Option String :=
  match b.summary_identity, b.list_account_aliases with
  | Outcome.ok _, Outcome.ok (a :: _) => some a
  | Outcome.ok _, Outcome.ok [] =>
    some ("AWS-" ++ g.account_id.getD "None")
  | _, _ => g.account_name

/-- The provider calls `collect_account_summary` makes. -/
def accountSummaryTrace (b : Behavior) (sid : Nat) : List Ev :=
  Ev.call "sts" "get_caller_identity" sid ::
    (match b.summary_identity with
     | Outcome.ok _ => [Ev.call "iam" "list_account_aliases" sid]
     | _ => [])

/-- The entry `collect_organizations` stores. -/
def organizationsEntry (b : Behavior) : Entry :=
  match b.describe_organization with
  | OrgResp.hang => []
  | OrgResp.ok oid mid fs =>
    [("organization_id", EVal.v (Val.s oid)),
     ("master_account_id", EVal.v (Val.s mid)),
     ("feature_set", EVal.v (Val.s fs))]
  | OrgResp.notInUse =>
    [("status", EVal.v (Val.s "Não está em uma organização"))]
  | OrgResp.clientError e => plainError e
  | OrgResp.exn e => plainError e

/-- The entry `collect_vpc_summary` stores. -/
def vpcSummaryEntry (b : Behavior) : Entry :=
  match b.describe_vpcs with
  | Outcome.hang => []
  | Outcome.exn e => plainError e
  | Outcome.ok vpcs =>
    match b.describe_subnets with
    | Outcome.hang => []
    | Outcome.exn e => plainError e
    | Outcome.ok nSubnets =>
      match b.describe_vpc_peering_connections with
      | Outcome.hang => []
      | Outcome.exn e => plainError e
      | Outcome.ok nPeering =>
        [("total_vpcs", EVal.v (Val.n vpcs.length)),
         ("total_subnets", EVal.v (Val.n nSubnets)),
         ("peering_connections", EVal.v (Val.n nPeering)),
         ("vpcs", EVal.recs (vpcs.map vpcRecord))]

/-- The provider calls `collect_vpc_summary` makes. -/
def vpcSummaryTrace (b : Behavior) (sid : Nat) : List Ev :=
  Ev.call "ec2" "describe_vpcs" sid ::
    (match b.describe_vpcs with
     | Outcome.ok _ =>
       Ev.call "ec2" "describe_subnets" sid ::
         (match b.describe_subnets with
          | Outcome.ok _ =>
            [Ev.call "ec2" "describe_vpc_peering_connections" sid]
          | _ => [])
     | _ => [])

/-- The record list the `collect_ecs` loop builds, or the message of the
exception that escapes it. -/
def ecsLoopPure (b : Behavior) :
    List String → List DataRecord → Except String (List DataRecord)
  | [], acc => Except.ok acc
  | arn :: rest, acc =>
    match b.list_services arn with
    | Outcome.ok services =>
      ecsLoopPure b rest (acc ++ [ecsRecord arn services])
    | Outcome.exn e => Except.error e
    | Outcome.hang => Except.error ""

/-- The provider calls the `collect_ecs` loop makes. -/
def ecsLoopTrace (b : Behavior) (sid : Nat) : List String → List Ev
  | [] => []
  | arn :: rest =>
    Ev.call "ecs" "list_services" sid ::
      (match b.list_services arn with
       | Outcome.ok _ => ecsLoopTrace b sid rest
       | _ => [])

/-- The entry `collect_ecs` stores. -/
def ecsEntry (b : Behavior) : Entry :=
  match b.list_clusters with
  | Outcome.hang => []
  | Outcome.exn e => plainError e
  | Outcome.ok arns =>
    match ecsLoopPure b arns [] with
    | Except.error e => plainError e
    | Except.ok recs =>
      [("total_clusters", EVal.v (Val.n recs.length)),
       ("clusters", EVal.recs recs)]

/-- The provider calls `collect_ecs` makes. -/
def ecsTrace (b : Behavior) (sid : Nat) : List Ev :=
  Ev.call "ecs" "list_clusters" sid ::
    (match b.list_clusters with
     | Outcome.ok arns => ecsLoopTrace b sid arns
     | _ => [])

/-- The events `setup_aws_session` emits: one session creation and the
identity call made with it. -/
def setupTrace : List Ev :=
  [Ev.sessionCreate 1, Ev.call "sts" "get_caller_identity" 1]

/-- The full data dict a completed run collects, one entry per collector
in registration order. -/
def collectData (b : Behavior) : List (String × Entry) :=
  [("account_summary", accountSummaryEntry b),
   ("organizations", organizationsEntry b),
   ("control_tower", simpleEntry ctEntry ctErr b.list_landing_zones),
   ("vpc_summary", vpcSummaryEntry b),
   ("route53", simpleEntry route53Entry plainError b.list_hosted_zones),
   ("ec2_instances", simpleEntry ec2Entry plainError b.describe_instances),
   ("rds", simpleEntry rdsEntry plainError b.describe_db_instances),
   ("api_gateway", simpleEntry apiGatewayEntry plainError b.get_rest_apis),
   ("cloudfront",
    simpleEntry cloudfrontEntry plainError b.list_distributions),
   ("lambda", simpleEntry lambdaEntry plainError b.list_functions),
   ("sns", simpleEntry snsEntry plainError b.list_topics),
   ("backup", simpleEntry backupEntry plainError b.list_backup_plans),
   ("eventbridge", simpleEntry eventbridgeEntry plainError b.list_rules),
   ("load_balancers",
    simpleEntry loadBalancersEntry plainError b.describe_load_balancers),
   ("ecs", ecsEntry b),
   ("iam_identity_center",
    simpleEntry ssoEntry ssoErr b.list_instances_sso)]

/-- The events the collection loop emits on a completed run. -/
def collectTrace (b : Behavior) : List Ev :=
  [Ev.start "collect_account_summary"] ++ accountSummaryTrace b 1 ++
  [Ev.fin "collect_account_summary",
   Ev.start "collect_organizations",
   Ev.call "organizations" "describe_organization" 1,
   Ev.fin "collect_organizations",
   Ev.start "collect_control_tower",
   Ev.call "controltower" "list_landing_zones" 1,
   Ev.fin "collect_control_tower",
   Ev.start "collect_vpc_summary"] ++ vpcSummaryTrace b 1 ++
  [Ev.fin "collect_vpc_summary",
   Ev.start "collect_route53",
   Ev.call "route53" "list_hosted_zones" 1,
   Ev.fin "collect_route53",
   Ev.start "collect_ec2_instances",
   Ev.call "ec2" "describe_instances" 1,
   Ev.fin "collect_ec2_instances",
   Ev.start "collect_rds",
   Ev.call "rds" "describe_db_instances" 1,
   Ev.fin "collect_rds",
   Ev.start "collect_api_gateway",
   Ev.call "apigateway" "get_rest_apis" 1,
   Ev.fin "collect_api_gateway",
   Ev.start "collect_cloudfront",
   Ev.call "cloudfront" "list_distributions" 1,
   Ev.fin "collect_cloudfront",
   Ev.start "collect_lambda",
   Ev.call "lambda" "list_functions" 1,
   Ev.fin "collect_lambda",
   Ev.start "collect_sns",
   Ev.call "sns" "list_topics" 1,
   Ev.fin "collect_sns",
   Ev.start "collect_backup",
   Ev.call "backup" "list_backup_plans" 1,
   Ev.fin "collect_backup",
   Ev.start "collect_eventbridge",
   Ev.call "events" "list_rules" 1,
   Ev.fin "collect_eventbridge",
   Ev.start "collect_load_balancers",
   Ev.call "elbv2" "describe_load_balancers" 1,
   Ev.fin "collect_load_balancers",
   Ev.start "collect_ecs"] ++ ecsTrace b 1 ++
  [Ev.fin "collect_ecs",
   Ev.start "collect_iam_identity_center",
   Ev.call "sso-admin" "list_instances" 1,
   Ev.fin "collect_iam_identity_center"]

/-- The account name a completed run ends with, given the identity the
setup call returned. -/
def nameAfter (b : Behavior) (ident : Identity) : Option String :=
  match b.summary_identity, b.list_account_aliases with
  | Outcome.ok _, Outcome.ok (a :: _) => some a
  | Outcome.ok _, Outcome.ok [] => some ("AWS-" ++ ident.account)
  | _, _ => none

/-- `self.data[k]`, as a consumer of the collected data reads it. -/
def lookupEntry : List (String × Entry) → String → Option Entry
  | [], _ => none
  | p :: rest, k => if p.1 = k then some p.2 else lookupEntry rest k

/-- Whether an event is a session creation (a credential resolution). -/
def isSessionCreate : Ev → Bool
  | Ev.sessionCreate _ => true
  | _ => false

/-- The events a collector may emit: only provider calls made with the
one cached session. -/
def segEv : Ev → Bool
  | Ev.call _ _ sid => sid == 1
  | _ => false

/-- The events a whole run may emit after setup: provider calls with the
cached session and the loop's start and finish markers — never another
session creation. -/
def runEv : Ev → Bool
  | Ev.sessionCreate _ => false
  | Ev.call _ _ sid => sid == 1
  | Ev.start _ => true
  | Ev.fin _ => true

/-- Scanner state for seriality: outside any collector, or inside the
named one. -/
inductive ScanSt where
  | outside
  | inside (methodName : String)
deriving DecidableEq

/-- One scanner step: `none` marks a trace that interleaves collectors
(a start before the running collector finished, or an unmatched
finish). -/
def scanStep : Option ScanSt → Ev → Option ScanSt
  | some ScanSt.outside, Ev.start n => some (ScanSt.inside n)
  | some (ScanSt.inside n), Ev.fin m =>
    if n = m then some ScanSt.outside else none
  | some ScanSt.outside, Ev.fin _ => none
  | some (ScanSt.inside _), Ev.start _ => none
  | some st, Ev.call _ _ _ => some st
  | some st, Ev.sessionCreate _ => some st
  | none, _ => none

/-- A trace is fully serial when the scanner accepts it: every
collector's events form one contiguous block, closed before the next
collector starts. -/
abbrev serialTrace (tr : List Ev) : Prop :=
  tr.foldl scanStep (some ScanSt.outside) = some ScanSt.outside

/-- Modelled from the spec: the closed set of error kinds the spec says
every recorded failure carries (`Timeout` included for the task level). -/
def specKinds : List String :=
  ["AuthFailure", "NotAuthorized", "ServiceUnavailable",
   "NotFoundOrDisabled", "Unknown", "Timeout"]

/-- Modelled from the spec: an entry carries a spec error kind when it
has a `kind` field holding one of the closed-set names.  To be compared
with the entries the source actually records. -/
def entryCarriesKind (e : Entry) : Bool :=
  e.any (fun p =>
    if p.1 = "kind" then
      match p.2 with
      | EVal.v (Val.s k) => specKinds.contains k
      | _ => false
    else false)

/-- A concrete caller identity, for witnesses. -/
def identOk : Identity :=
  ⟨"123456789012", some "AIDAEXAMPLE",
   some "arn:aws:iam::123456789012:user/dev"⟩

/-- A concrete behavior on which every provider call succeeds. -/
def bOk : Behavior :=
  ⟨Outcome.ok identOk, Outcome.ok identOk, Outcome.ok ["prod-account"],
   OrgResp.notInUse, Outcome.ok 0, Outcome.ok [], Outcome.ok 0,
   Outcome.ok 0, Outcome.ok [], Outcome.ok [], Outcome.ok [],
   Outcome.ok [], Outcome.ok none, Outcome.ok [], Outcome.ok [],
   Outcome.ok [], Outcome.ok [], Outcome.ok [], Outcome.ok [],
   fun _ => Outcome.ok [], Outcome.ok []⟩

/-- The all-succeeding behavior with failing credential setup. -/
def bAuthFail : Behavior :=
  { bOk with setup_identity := Outcome.exn "Unable to locate credentials" }

/-- The all-succeeding behavior with the EC2 describe call denied. -/
def bEc2Denied : Behavior :=
  { bOk with describe_instances :=
      Outcome.exn "An error occurred (UnauthorizedOperation) when calling the DescribeInstances operation" }

/-- The all-succeeding behavior with the EC2 describe call never
returning. -/
def bEc2Hang : Behavior :=
  { bOk with describe_instances := Outcome.hang }

/-- A concrete generation moment. -/
def iNow : Instant := ⟨"07/10/2025 09:00", "20251007_090000"⟩

/-- A later concrete generation moment. -/
def iNow2 : Instant := ⟨"08/10/2025 10:30", "20251008_103000"⟩

/-- A concrete generator state with empty collected data. -/
def gC7 : Gen := ⟨some 1, some "123456789012", some "prod-account", [], []⟩

/-- Eleven identical zone records, for exercising table truncation. -/
def zonesRecs : List DataRecord :=
  List.replicate 11
    [("name", Val.s "example.com."), ("id", Val.s "Z1"),
     ("record_count", Val.n 2)]

/-- The data collected before the sixth collector (EC2 instances) runs:
the first five entries in registration order. -/
def dataBeforeEc2 (b : Behavior) : List (String × Entry) :=
  [("account_summary", accountSummaryEntry b),
   ("organizations", organizationsEntry b),
   ("control_tower", simpleEntry ctEntry ctErr b.list_landing_zones),
   ("vpc_summary", vpcSummaryEntry b),
   ("route53", simpleEntry route53Entry plainError b.list_hosted_zones)]

/-! Step lemmas: each collection method, on a non-hanging behavior, adds
exactly its entry and its provider-call events. -/

theorem simpleCollect_step {α : Type} {svc op key : String}
    {f : α → Entry} {errF : String → Entry} (o : Outcome α) (g : Gen)
    (h : o ≠ Outcome.hang) :
    simpleCollect svc op key f errF o g =
      Res.next { g with
        data := setKey g.data key (simpleEntry f errF o),
        trace := g.trace ++ [Ev.call svc op (g.session.getD 0)] } := by
  cases o with
  | hang => exact absurd rfl h
  | exn e => rfl
  | ok a => rfl

theorem collect_account_summary_step {b : Behavior} {g : Gen}
    (h1 : b.summary_identity ≠ Outcome.hang)
    (h2 : b.list_account_aliases ≠ Outcome.hang) :
    collect_account_summary b g =
      Res.next { g with
        data := setKey g.data "account_summary" (accountSummaryEntry b),
        account_name := accountNameAfter b g,
        trace := g.trace ++ accountSummaryTrace b (g.session.getD 0) } := by
  cases hi : b.summary_identity with
  | hang => exact absurd hi h1
  | exn e =>
    simp [collect_account_summary, hi, accountSummaryEntry,
      accountNameAfter, accountSummaryTrace, Gen.callEv, Gen.emit,
      Gen.setData]
  | ok ident =>
    cases ha : b.list_account_aliases with
    | hang => exact absurd ha h2
    | exn e =>
      simp [collect_account_summary, hi, ha, accountSummaryEntry,
        accountNameAfter, accountSummaryTrace, Gen.callEv, Gen.emit,
        Gen.setData]
    | ok aliases =>
      cases aliases with
      | nil =>
        simp [collect_account_summary, hi, ha, accountSummaryEntry,
          accountNameAfter, accountSummaryTrace, Gen.callEv, Gen.emit,
          Gen.setData]
      | cons a rest =>
        simp [collect_account_summary, hi, ha, accountSummaryEntry,
          accountNameAfter, accountSummaryTrace, Gen.callEv, Gen.emit,
          Gen.setData]

theorem collect_organizations_step {b : Behavior} {g : Gen}
    (h : b.describe_organization ≠ OrgResp.hang) :
    collect_organizations b g =
      Res.next { g with
        data := setKey g.data "organizations" (organizationsEntry b),
        trace := g.trace ++
          [Ev.call "organizations" "describe_organization"
            (g.session.getD 0)] } := by
  cases ho : b.describe_organization with
  | hang => exact absurd ho h
  | ok oid mid fs =>
    simp [collect_organizations, ho, organizationsEntry, Gen.callEv,
      Gen.emit, Gen.setData]
  | notInUse =>
    simp [collect_organizations, ho, organizationsEntry, Gen.callEv,
      Gen.emit, Gen.setData]
  | clientError e =>
    simp [collect_organizations, ho, organizationsEntry, Gen.callEv,
      Gen.emit, Gen.setData]
  | exn e =>
    simp [collect_organizations, ho, organizationsEntry, Gen.callEv,
      Gen.emit, Gen.setData]

theorem collect_vpc_summary_step {b : Behavior} {g : Gen}
    (h1 : b.describe_vpcs ≠ Outcome.hang)
    (h2 : b.describe_subnets ≠ Outcome.hang)
    (h3 : b.describe_vpc_peering_connections ≠ Outcome.hang) :
    collect_vpc_summary b g =
      Res.next { g with
        data := setKey g.data "vpc_summary" (vpcSummaryEntry b),
        trace := g.trace ++ vpcSummaryTrace b (g.session.getD 0) } := by
  cases hv : b.describe_vpcs with
  | hang => exact absurd hv h1
  | exn e =>
    simp [collect_vpc_summary, hv, vpcSummaryEntry, vpcSummaryTrace,
      Gen.callEv, Gen.emit, Gen.setData]
  | ok vpcs =>
    cases hs : b.describe_subnets with
    | hang => exact absurd hs h2
    | exn e =>
      simp [collect_vpc_summary, hv, hs, vpcSummaryEntry, vpcSummaryTrace,
        Gen.callEv, Gen.emit, Gen.setData]
    | ok nSubnets =>
      cases hp : b.describe_vpc_peering_connections with
      | hang => exact absurd hp h3
      | exn e =>
        simp [collect_vpc_summary, hv, hs, hp, vpcSummaryEntry,
          vpcSummaryTrace, Gen.callEv, Gen.emit, Gen.setData]
      | ok nPeering =>
        simp [collect_vpc_summary, hv, hs, hp, vpcSummaryEntry,
          vpcSummaryTrace, Gen.callEv, Gen.emit, Gen.setData]

theorem ecsLoop_spec {b : Behavior}
    (h : ∀ arn, b.list_services arn ≠ Outcome.hang) :
    ∀ (arns : List String) (g : Gen) (acc : List DataRecord),
    ecsLoop b arns g acc =
      match ecsLoopPure b arns acc with
      | Except.ok recs =>
        LoopRes.done
          { g with trace := g.trace ++ ecsLoopTrace b (g.session.getD 0) arns }
          recs
      | Except.error e =>
        LoopRes.failed
          { g with trace := g.trace ++ ecsLoopTrace b (g.session.getD 0) arns }
          e := by
  intro arns
  induction arns with
  | nil => intro g acc; simp [ecsLoop, ecsLoopPure, ecsLoopTrace]
  | cons arn rest ih =>
    intro g acc
    cases hs : b.list_services arn with
    | hang => exact absurd hs (h arn)
    | exn e =>
      simp [ecsLoop, ecsLoopPure, ecsLoopTrace, hs, Gen.callEv, Gen.emit]
    | ok services =>
      simp only [ecsLoop, Gen.callEv, Gen.emit, hs]
      rw [ih]
      simp only [ecsLoopPure, ecsLoopTrace, hs]
      cases ecsLoopPure b rest (acc ++ [ecsRecord arn services]) with
      | ok recs => simp
      | error e => simp

theorem collect_ecs_step {b : Behavior} {g : Gen}
    (h1 : b.list_clusters ≠ Outcome.hang)
    (h2 : ∀ arn, b.list_services arn ≠ Outcome.hang) :
    collect_ecs b g =
      Res.next { g with
        data := setKey g.data "ecs" (ecsEntry b),
        trace := g.trace ++ ecsTrace b (g.session.getD 0) } := by
  cases hc : b.list_clusters with
  | hang => exact absurd hc h1
  | exn e =>
    simp [collect_ecs, hc, ecsEntry, ecsTrace, Gen.callEv, Gen.emit,
      Gen.setData]
  | ok arns =>
    simp only [collect_ecs, hc, Gen.callEv, Gen.emit]
    rw [ecsLoop_spec h2]
    simp only [ecsEntry, ecsTrace, hc]
    cases ecsLoopPure b arns [] with
    | ok recs => simp [Gen.setData]
    | error e => simp [Gen.setData]

theorem runMethods_cons {b : Behavior} {n : String}
    {m : Behavior → Gen → Res}
    {rest : List (String × (Behavior → Gen → Res))} {g g' : Gen}
    (h : m b (g.emit (Ev.start n)) = Res.next g') :
    runMethods b ((n, m) :: rest) g =
      runMethods b rest (g'.emit (Ev.fin n)) := by
  simp [runMethods, h]

theorem collect_control_tower_step {b : Behavior} {g : Gen}
    (h : b.list_landing_zones ≠ Outcome.hang) :
    collect_control_tower b g =
      Res.next { g with
        data := setKey g.data "control_tower"
          (simpleEntry ctEntry ctErr b.list_landing_zones),
        trace := g.trace ++
          [Ev.call "controltower" "list_landing_zones"
            (g.session.getD 0)] } :=
  simpleCollect_step _ _ h

theorem collect_route53_step {b : Behavior} {g : Gen}
    (h : b.list_hosted_zones ≠ Outcome.hang) :
    collect_route53 b g =
      Res.next { g with
        data := setKey g.data "route53"
          (simpleEntry route53Entry plainError b.list_hosted_zones),
        trace := g.trace ++
          [Ev.call "route53" "list_hosted_zones" (g.session.getD 0)] } :=
  simpleCollect_step _ _ h

theorem collect_ec2_instances_step {b : Behavior} {g : Gen}
    (h : b.describe_instances ≠ Outcome.hang) :
    collect_ec2_instances b g =
      Res.next { g with
        data := setKey g.data "ec2_instances"
          (simpleEntry ec2Entry plainError b.describe_instances),
        trace := g.trace ++
          [Ev.call "ec2" "describe_instances" (g.session.getD 0)] } :=
  simpleCollect_step _ _ h

theorem collect_rds_step {b : Behavior} {g : Gen}
    (h : b.describe_db_instances ≠ Outcome.hang) :
    collect_rds b g =
      Res.next { g with
        data := setKey g.data "rds"
          (simpleEntry rdsEntry plainError b.describe_db_instances),
        trace := g.trace ++
          [Ev.call "rds" "describe_db_instances" (g.session.getD 0)] } :=
  simpleCollect_step _ _ h

theorem collect_api_gateway_step {b : Behavior} {g : Gen}
    (h : b.get_rest_apis ≠ Outcome.hang) :
    collect_api_gateway b g =
      Res.next { g with
        data := setKey g.data "api_gateway"
          (simpleEntry apiGatewayEntry plainError b.get_rest_apis),
        trace := g.trace ++
          [Ev.call "apigateway" "get_rest_apis" (g.session.getD 0)] } :=
  simpleCollect_step _ _ h

theorem collect_cloudfront_step {b : Behavior} {g : Gen}
    (h : b.list_distributions ≠ Outcome.hang) :
    collect_cloudfront b g =
      Res.next { g with
        data := setKey g.data "cloudfront"
          (simpleEntry cloudfrontEntry plainError b.list_distributions),
        trace := g.trace ++
          [Ev.call "cloudfront" "list_distributions" (g.session.getD 0)] } :=
  simpleCollect_step _ _ h

theorem collect_lambda_step {b : Behavior} {g : Gen}
    (h : b.list_functions ≠ Outcome.hang) :
    collect_lambda b g =
      Res.next { g with
        data := setKey g.data "lambda"
          (simpleEntry lambdaEntry plainError b.list_functions),
        trace := g.trace ++
          [Ev.call "lambda" "list_functions" (g.session.getD 0)] } :=
  simpleCollect_step _ _ h

theorem collect_sns_step {b : Behavior} {g : Gen}
    (h : b.list_topics ≠ Outcome.hang) :
    collect_sns b g =
      Res.next { g with
        data := setKey g.data "sns"
          (simpleEntry snsEntry plainError b.list_topics),
        trace := g.trace ++
          [Ev.call "sns" "list_topics" (g.session.getD 0)] } :=
  simpleCollect_step _ _ h

theorem collect_backup_step {b : Behavior} {g : Gen}
    (h : b.list_backup_plans ≠ Outcome.hang) :
    collect_backup b g =
      Res.next { g with
        data := setKey g.data "backup"
          (simpleEntry backupEntry plainError b.list_backup_plans),
        trace := g.trace ++
          [Ev.call "backup" "list_backup_plans" (g.session.getD 0)] } :=
  simpleCollect_step _ _ h

theorem collect_eventbridge_step {b : Behavior} {g : Gen}
    (h : b.list_rules ≠ Outcome.hang) :
    collect_eventbridge b g =
      Res.next { g with
        data := setKey g.data "eventbridge"
          (simpleEntry eventbridgeEntry plainError b.list_rules),
        trace := g.trace ++
          [Ev.call "events" "list_rules" (g.session.getD 0)] } :=
  simpleCollect_step _ _ h

theorem collect_load_balancers_step {b : Behavior} {g : Gen}
    (h : b.describe_load_balancers ≠ Outcome.hang) :
    collect_load_balancers b g =
      Res.next { g with
        data := setKey g.data "load_balancers"
          (simpleEntry loadBalancersEntry plainError
            b.describe_load_balancers),
        trace := g.trace ++
          [Ev.call "elbv2" "describe_load_balancers"
            (g.session.getD 0)] } :=
  simpleCollect_step _ _ h

theorem collect_iam_identity_center_step {b : Behavior} {g : Gen}
    (h : b.list_instances_sso ≠ Outcome.hang) :
    collect_iam_identity_center b g =
      Res.next { g with
        data := setKey g.data "iam_identity_center"
          (simpleEntry ssoEntry ssoErr b.list_instances_sso),
        trace := g.trace ++
          [Ev.call "sso-admin" "list_instances" (g.session.getD 0)] } :=
  simpleCollect_step _ _ h


theorem accountNameAfter_eq {b : Behavior} {ident : Identity} {g : Gen}
    (hid : g.account_id = some ident.account)
    (hn : g.account_name = none) :
    accountNameAfter b g = nameAfter b ident := by
  unfold accountNameAfter nameAfter
  cases b.summary_identity with
  | ok i =>
    cases b.list_account_aliases with
    | ok al => cases al <;> simp [hid, hn]
    | exn e => simp [hn]
    | hang => simp [hn]
  | exn e => simp [hn]
  | hang => simp [hn]

/-- Normal form of a run whose credential setup fails: the session was
created and the identity call made, nothing was collected. -/
theorem runGen_failed_nf (b : Behavior) (m : String)
    (hs : b.setup_identity = Outcome.exn m) :
    runGen b = SetupRes.failed ⟨some 1, none, none, [], setupTrace⟩ := by
  simp [runGen, setup_aws_session, Gen.init, Gen.callEv, Gen.emit, hs,
    setupTrace]

/-- Normal form of a completed run: the final state holds one entry per
collector in registration order, and the full event trace. -/
theorem runGen_ok_nf (b : Behavior) (ident : Identity) (hb : b.NoHang)
    (hs : b.setup_identity = Outcome.ok ident) :
    runGen b = SetupRes.ok
      { session := some 1, account_id := some ident.account,
        account_name := nameAfter b ident,
        data := collectData b,
        trace := setupTrace ++ collectTrace b } := by
  obtain ⟨h1, h2, h3, h4, h5, h6, h7, h8, h9, h10, h11, h12, h13, h14,
    h15, h16, h17, h18, h19, h20, h21⟩ := hb
  simp only [runGen, setup_aws_session, Gen.init, Gen.callEv, Gen.emit, hs]
  simp only [collect_all_data, collection_methods]
  rw [runMethods_cons (collect_account_summary_step h2 h3),
      runMethods_cons (collect_organizations_step h4),
      runMethods_cons (collect_control_tower_step h5),
      runMethods_cons (collect_vpc_summary_step h6 h7 h8),
      runMethods_cons (collect_route53_step h9),
      runMethods_cons (collect_ec2_instances_step h10),
      runMethods_cons (collect_rds_step h11),
      runMethods_cons (collect_api_gateway_step h12),
      runMethods_cons (collect_cloudfront_step h13),
      runMethods_cons (collect_lambda_step h14),
      runMethods_cons (collect_sns_step h15),
      runMethods_cons (collect_backup_step h16),
      runMethods_cons (collect_eventbridge_step h17),
      runMethods_cons (collect_load_balancers_step h18),
      runMethods_cons (collect_ecs_step h19 h20),
      runMethods_cons (collect_iam_identity_center_step h21)]
  simp only [runMethods, Gen.emit]
  rw [accountNameAfter_eq rfl rfl]
  simp [setKey, setupTrace, collectTrace, collectData, List.append_assoc]

/-! Trace facts: what events each collector can emit, and what the
scanner and counters conclude from them. -/

theorem segEv_account (b : Behavior) :
    (accountSummaryTrace b 1).all segEv = true := by
  unfold accountSummaryTrace
  cases b.summary_identity <;> simp [segEv]

theorem segEv_vpc (b : Behavior) :
    (vpcSummaryTrace b 1).all segEv = true := by
  unfold vpcSummaryTrace
  cases b.describe_vpcs <;> cases b.describe_subnets <;> simp [segEv]

theorem segEv_ecsLoop (b : Behavior) (arns : List String) :
    (ecsLoopTrace b 1 arns).all segEv = true := by
  induction arns with
  | nil => rfl
  | cons arn rest ih =>
    unfold ecsLoopTrace
    cases b.list_services arn <;> simp [segEv, ih]

theorem segEv_ecs (b : Behavior) :
    (ecsTrace b 1).all segEv = true := by
  unfold ecsTrace
  cases b.list_clusters <;> simp [segEv, segEv_ecsLoop]

theorem all_mem {p : Ev → Bool} {tr : List Ev} (h : tr.all p = true) :
    ∀ e ∈ tr, p e = true := by
  induction tr with
  | nil => intro e he; cases he
  | cons x xs ih =>
    intro e he
    simp only [List.all_cons, Bool.and_eq_true] at h
    rcases List.mem_cons.mp he with rfl | hm
    · exact h.1
    · exact ih h.2 e hm

theorem all_mono {p q : Ev → Bool} (h : ∀ e, p e = true → q e = true) :
    ∀ {tr : List Ev}, tr.all p = true → tr.all q = true := by
  intro tr
  induction tr with
  | nil => intro _; rfl
  | cons x xs ih =>
    intro hall
    simp only [List.all_cons, Bool.and_eq_true] at hall ⊢
    exact ⟨h x hall.1, ih hall.2⟩

theorem runEv_of_segEv (e : Ev) (h : segEv e = true) : runEv e = true := by
  cases e <;> simp_all [segEv, runEv]

theorem scanStep_call (st : ScanSt) (sv op : String) (sid : Nat) :
    scanStep (some st) (Ev.call sv op sid) = some st := by
  cases st <;> rfl

theorem foldl_scan_seg {tr : List Ev} (h : tr.all segEv = true) :
    ∀ st : ScanSt, tr.foldl scanStep (some st) = some st := by
  induction tr with
  | nil => intro st; rfl
  | cons e rest ih =>
    intro st
    simp only [List.all_cons, Bool.and_eq_true] at h
    cases e with
    | call sv op sid =>
      rw [List.foldl_cons, scanStep_call]
      exact ih h.2 st
    | sessionCreate s => simp [segEv] at h
    | start n => simp [segEv] at h
    | fin n => simp [segEv] at h

theorem countP_sc_of_runEv {tr : List Ev} (h : tr.all runEv = true) :
    tr.countP isSessionCreate = 0 := by
  induction tr with
  | nil => rfl
  | cons e rest ih =>
    simp only [List.all_cons, Bool.and_eq_true] at h
    cases e with
    | sessionCreate s => simp [runEv] at h
    | call sv op sid => simp [List.countP_cons, isSessionCreate, ih h.2]
    | start n => simp [List.countP_cons, isSessionCreate, ih h.2]
    | fin n => simp [List.countP_cons, isSessionCreate, ih h.2]

theorem call_sid_of_runEv {tr : List Ev} (h : tr.all runEv = true) :
    ∀ sv op sid, Ev.call sv op sid ∈ tr → sid = 1 := by
  intro sv op sid hm
  have he := all_mem h _ hm
  simpa [runEv] using he

theorem collectTrace_runEv (b : Behavior) :
    (collectTrace b).all runEv = true := by
  have ha := all_mono runEv_of_segEv (segEv_account b)
  have hv := all_mono runEv_of_segEv (segEv_vpc b)
  have he := all_mono runEv_of_segEv (segEv_ecs b)
  simp [collectTrace, List.all_append, ha, hv, he, runEv]

/-! Entry facts: no entry the collectors build ever carries a spec error
kind. -/

theorem eck_plainError (e : String) :
    entryCarriesKind (plainError e) = false := by
  simp [entryCarriesKind, plainError]

theorem eck_ctErr (e : String) : entryCarriesKind (ctErr e) = false := by
  simp [entryCarriesKind, ctErr]

theorem eck_ssoErr (e : String) : entryCarriesKind (ssoErr e) = false := by
  simp [entryCarriesKind, ssoErr]

theorem eck_ctEntry (n : Nat) : entryCarriesKind (ctEntry n) = false := by
  simp [entryCarriesKind, ctEntry]

theorem eck_route53Entry (zs : List Zone) :
    entryCarriesKind (route53Entry zs) = false := by
  simp [entryCarriesKind, route53Entry]

theorem eck_ec2Entry (rs : List Reservation) :
    entryCarriesKind (ec2Entry rs) = false := by
  simp [entryCarriesKind, ec2Entry]

theorem eck_rdsEntry (ds : List DbInst) :
    entryCarriesKind (rdsEntry ds) = false := by
  simp [entryCarriesKind, rdsEntry]

theorem eck_apiGatewayEntry (apis : List RestApi) :
    entryCarriesKind (apiGatewayEntry apis) = false := by
  simp [entryCarriesKind, apiGatewayEntry]

theorem eck_cloudfrontEntry (items : Option (List Distribution)) :
    entryCarriesKind (cloudfrontEntry items) = false := by
  simp [entryCarriesKind, cloudfrontEntry]

theorem eck_lambdaEntry (fs : List LambdaFn) :
    entryCarriesKind (lambdaEntry fs) = false := by
  simp [entryCarriesKind, lambdaEntry]

theorem eck_snsEntry (arns : List String) :
    entryCarriesKind (snsEntry arns) = false := by
  simp [entryCarriesKind, snsEntry]

theorem eck_backupEntry (ps : List BackupPlan) :
    entryCarriesKind (backupEntry ps) = false := by
  simp [entryCarriesKind, backupEntry]

theorem eck_eventbridgeEntry (rules : List EventRule) :
    entryCarriesKind (eventbridgeEntry rules) = false := by
  simp [entryCarriesKind, eventbridgeEntry]

theorem eck_loadBalancersEntry (lbs : List LoadBalancer) :
    entryCarriesKind (loadBalancersEntry lbs) = false := by
  simp [entryCarriesKind, loadBalancersEntry]

theorem eck_ssoEntry (is' : List SsoInst) :
    entryCarriesKind (ssoEntry is') = false := by
  simp [entryCarriesKind, ssoEntry]

theorem eck_simple {α : Type} {f : α → Entry} {errF : String → Entry}
    (hf : ∀ a, entryCarriesKind (f a) = false)
    (he : ∀ e, entryCarriesKind (errF e) = false) (o : Outcome α) :
    entryCarriesKind (simpleEntry f errF o) = false := by
  cases o with
  | ok a => exact hf a
  | exn e => exact he e
  | hang => rfl

theorem eck_accountSummary (b : Behavior) :
    entryCarriesKind (accountSummaryEntry b) = false := by
  unfold accountSummaryEntry
  cases b.summary_identity with
  | hang => rfl
  | exn e => exact eck_plainError e
  | ok i =>
    cases b.list_account_aliases with
    | hang => rfl
    | exn e => exact eck_plainError e
    | ok al => simp [entryCarriesKind]

theorem eck_organizations (b : Behavior) :
    entryCarriesKind (organizationsEntry b) = false := by
  unfold organizationsEntry
  cases b.describe_organization <;> simp [entryCarriesKind, plainError]

theorem eck_vpc (b : Behavior) :
    entryCarriesKind (vpcSummaryEntry b) = false := by
  unfold vpcSummaryEntry
  cases b.describe_vpcs <;> cases b.describe_subnets <;>
    cases b.describe_vpc_peering_connections <;>
    simp [entryCarriesKind, plainError]

theorem eck_ecs (b : Behavior) :
    entryCarriesKind (ecsEntry b) = false := by
  unfold ecsEntry
  cases b.list_clusters with
  | hang => rfl
  | exn e => simpa using eck_plainError e
  | ok arns =>
    cases hp : ecsLoopPure b arns [] with
    | error e => simp [hp, entryCarriesKind, plainError]
    | ok recs => simp [hp, entryCarriesKind]

theorem bOk_noHang : bOk.NoHang := by
  simp [Behavior.NoHang, bOk]

theorem bEc2Denied_noHang : bEc2Denied.NoHang := by
  simp [Behavior.NoHang, bEc2Denied, bOk]

/-! ## Claim theorems -/

/-- C1: the final report contains exactly one section per registered
collector, in registration order, whatever the collected data holds (so
independent of any completion order), and the section count equals the
registry size; moreover a completed run's data dict holds exactly the
registry keys in registration order. -/
theorem claim1_report_sections_registry_order :
    (∀ data : List (String × Entry),
      (report_sections data).map Prod.fst = registryKeys ∧
      (report_sections data).length = registryKeys.length) ∧
    (∀ (b : Behavior) (ident : Identity), b.NoHang →
      b.setup_identity = Outcome.ok ident →
      (runGenData b).map Prod.fst = registryKeys) := by
  constructor
  · intro data
    exact ⟨by simp [report_sections, section_tuples, registryKeys],
           by simp [report_sections, section_tuples, registryKeys]⟩
  · intro b ident hb hs
    simp only [runGenData, runGen_ok_nf b ident hb hs, SetupRes.gen]
    simp [collectData, registryKeys]

/-- Witness for C1: the section skeleton of the empty data dict, and a
completed concrete run. -/
theorem claim1_report_sections_registry_order_witness :
    ((report_sections []).map Prod.fst = registryKeys ∧
     (report_sections []).length = registryKeys.length) ∧
    (runGenData bOk).map Prod.fst = registryKeys :=
  ⟨claim1_report_sections_registry_order.1 [],
   claim1_report_sections_registry_order.2 bOk identOk bOk_noHang rfl⟩

/-- C4: on any run that terminates, the entry point exits zero exactly
when the single task succeeded (credentials resolved; collector failures
are absorbed), and exits non-zero exactly when zero tasks succeeded. -/
theorem claim4_exit_status_iff_task_success :
    ∀ (b : Behavior) (now : Instant) (logo : Bool), b.NoHang →
      ((mainExit b now logo = some 0) ↔ 0 < tasksSucceeded b) ∧
      ((mainExit b now logo = some 1) ↔ tasksSucceeded b = 0) := by
  intro b now logo hb
  cases hsi : b.setup_identity with
  | hang => exact absurd hsi hb.1
  | exn m =>
    simp [mainExit, run, runGen_failed_nf b m hsi, tasksSucceeded, hsi]
  | ok ident =>
    simp [mainExit, run, runGen_ok_nf b ident hb hsi, tasksSucceeded, hsi]

/-- Witness for C4: a run whose EC2 collector fails still exits zero,
since its one task succeeded. -/
theorem claim4_exit_status_iff_task_success_witness :
    bEc2Denied.NoHang ∧
    (mainExit bEc2Denied iNow false = some 0 ↔
      0 < tasksSucceeded bEc2Denied) :=
  ⟨bEc2Denied_noHang,
   (claim4_exit_status_iff_task_success bEc2Denied iNow false
      bEc2Denied_noHang).1⟩

/-- C6 counterexample: when credentials never resolve, `run` returns
before any collection or rendering — no document exists at all and the
data dict is empty, so no per-collector `AuthFailure` entries are
recorded anywhere. -/
theorem claim6_counterexample :
    run bAuthFail iNow false =
      RunRes.finished ⟨some 1, none, none, [], setupTrace⟩ false none
        none ∧
    runGenData bAuthFail = [] :=
  ⟨by decide, by decide⟩

/-- C6 amended: a run whose credentials never resolve produces no report
at all — it aborts after setup with success `False`, no document and no
filename, and the process exits non-zero. -/
theorem claim6_amended_no_report_on_auth_failure :
    ∀ (b : Behavior) (m : String) (now : Instant) (logo : Bool),
      b.setup_identity = Outcome.exn m →
      run b now logo =
        RunRes.finished ⟨some 1, none, none, [], setupTrace⟩ false none
          none ∧
      mainExit b now logo = some 1 := by
  intro b m now logo hs
  constructor
  · simp [run, runGen_failed_nf b m hs]
  · simp [mainExit, run, runGen_failed_nf b m hs]

/-- Witness for the amended C6 at the concrete failing behavior. -/
theorem claim6_amended_no_report_on_auth_failure_witness :
    run bAuthFail iNow false =
      RunRes.finished ⟨some 1, none, none, [], setupTrace⟩ false none
        none ∧
    mainExit bAuthFail iNow false = some 1 :=
  claim6_amended_no_report_on_auth_failure bAuthFail
    "Unable to locate credentials" iNow false rfl

/-- C7 counterexample: the generated document depends on the invocation
time — the same state rendered at two different moments gives two
different documents (the cover page embeds `datetime.now()`). -/
theorem claim7_counterexample :
    generate_document gC7 iNow false ≠ generate_document gC7 iNow2 false := by
  decide

/-- C7 amended: document generation is a pure function of the collected
state, the invocation time, and the logo-file presence; only the cover
page and the filename depend on the time — everything after the cover is
one body determined by the collected data alone. -/
theorem claim7_amended_deterministic_given_time :
    ∀ (g : Gen) (t t' : Instant) (logo : Bool),
      ∃ body : List Block,
        (generate_document g t logo).1 = add_cover_page g t logo ++ body ∧
        (generate_document g t' logo).1 =
          add_cover_page g t' logo ++ body ∧
        (generate_document g t logo).2 =
          "runbook_" ++ pyOpt g.account_id ++ "_" ++ t.fileStamp ++
            ".docx" := by
  intro g t t' logo
  refine ⟨add_table_of_contents ++ (report_sections g.data).flatMap
    Prod.snd, ?_, ?_, rfl⟩ <;>
    simp [generate_document, List.append_assoc]

/-- C10: a nonempty record list is rendered as its first ten records in
payload order; when more than ten exist, a note states how many were
omitted, and when at most ten exist the whole list is rendered (the note
branch is empty). -/
theorem claim10_detailed_table_truncation :
    ∀ (dt : String) (items : List DataRecord), items ≠ [] →
      ∃ hs ks, detailCols dt items = some (hs, ks) ∧
        create_detailed_table dt items =
          Block.table (hs.map pyTitle)
              ((items.take 10).map (fun item => ks.map (renderCell item)))
            :: (if 10 < items.length then
                 [Block.para ("... e mais " ++
                    toString (items.length - 10) ++ " itens")]
               else []) ∧
        (items.length ≤ 10 → items.take 10 = items) := by
  intro dt items hne
  obtain ⟨hs, ks, hcols⟩ : ∃ hs ks, detailCols dt items = some (hs, ks) := by
    cases items with
    | nil => exact absurd rfl hne
    | cons x xs =>
      simp only [detailCols]
      split_ifs <;> exact ⟨_, _, rfl⟩
  refine ⟨hs, ks, hcols, ?_, fun hle => List.take_of_length_le hle⟩
  unfold create_detailed_table
  rw [hcols]
  simp

/-- Witness for C10 at a concrete eleven-record zone list. -/
theorem claim10_detailed_table_truncation_witness :
    zonesRecs ≠ [] ∧
    ∃ hs ks, detailCols "zones" zonesRecs = some (hs, ks) ∧
      create_detailed_table "zones" zonesRecs =
        Block.table (hs.map pyTitle)
            ((zonesRecs.take 10).map
              (fun item => ks.map (renderCell item)))
          :: (if 10 < zonesRecs.length then
               [Block.para ("... e mais " ++
                  toString (zonesRecs.length - 10) ++ " itens")]
             else []) ∧
      (zonesRecs.length ≤ 10 → zonesRecs.take 10 = zonesRecs) :=
  ⟨by decide,
   claim10_detailed_table_truncation "zones" zonesRecs (by decide)⟩

/-- C2: on a completed run, every collector's slot is present (so after
any one collector fails, all remaining collectors still executed and
recorded their own entries), and a provider exception raised inside any
collector is caught at that collector's boundary and recorded as that
collector's own error entry — it never aborts the run. -/
theorem claim2_collector_failure_isolation :
    ∀ (b : Behavior) (ident : Identity), b.NoHang →
      b.setup_identity = Outcome.ok ident →
      ((runGenData b).map Prod.fst = registryKeys ∧
       (∀ m, b.summary_identity = Outcome.exn m →
         lookupEntry (runGenData b) "account_summary" =
           some (plainError m)) ∧
       (∀ i m, b.summary_identity = Outcome.ok i →
         b.list_account_aliases = Outcome.exn m →
         lookupEntry (runGenData b) "account_summary" =
           some (plainError m)) ∧
       (∀ m, b.describe_organization = OrgResp.exn m →
         lookupEntry (runGenData b) "organizations" =
           some (plainError m)) ∧
       (∀ m, b.describe_organization = OrgResp.clientError m →
         lookupEntry (runGenData b) "organizations" =
           some (plainError m)) ∧
       (∀ m, b.list_landing_zones = Outcome.exn m →
         lookupEntry (runGenData b) "control_tower" = some (ctErr m)) ∧
       (∀ m, b.describe_vpcs = Outcome.exn m →
         lookupEntry (runGenData b) "vpc_summary" = some (plainError m)) ∧
       (∀ v m, b.describe_vpcs = Outcome.ok v →
         b.describe_subnets = Outcome.exn m →
         lookupEntry (runGenData b) "vpc_summary" = some (plainError m)) ∧
       (∀ v n m, b.describe_vpcs = Outcome.ok v →
         b.describe_subnets = Outcome.ok n →
         b.describe_vpc_peering_connections = Outcome.exn m →
         lookupEntry (runGenData b) "vpc_summary" = some (plainError m)) ∧
       (∀ m, b.list_hosted_zones = Outcome.exn m →
         lookupEntry (runGenData b) "route53" = some (plainError m)) ∧
       (∀ m, b.describe_instances = Outcome.exn m →
         lookupEntry (runGenData b) "ec2_instances" =
           some (plainError m)) ∧
       (∀ m, b.describe_db_instances = Outcome.exn m →
         lookupEntry (runGenData b) "rds" = some (plainError m)) ∧
       (∀ m, b.get_rest_apis = Outcome.exn m →
         lookupEntry (runGenData b) "api_gateway" = some (plainError m)) ∧
       (∀ m, b.list_distributions = Outcome.exn m →
         lookupEntry (runGenData b) "cloudfront" = some (plainError m)) ∧
       (∀ m, b.list_functions = Outcome.exn m →
         lookupEntry (runGenData b) "lambda" = some (plainError m)) ∧
       (∀ m, b.list_topics = Outcome.exn m →
         lookupEntry (runGenData b) "sns" = some (plainError m)) ∧
       (∀ m, b.list_backup_plans = Outcome.exn m →
         lookupEntry (runGenData b) "backup" = some (plainError m)) ∧
       (∀ m, b.list_rules = Outcome.exn m →
         lookupEntry (runGenData b) "eventbridge" = some (plainError m)) ∧
       (∀ m, b.describe_load_balancers = Outcome.exn m →
         lookupEntry (runGenData b) "load_balancers" =
           some (plainError m)) ∧
       (∀ m, b.list_clusters = Outcome.exn m →
         lookupEntry (runGenData b) "ecs" = some (plainError m)) ∧
       (∀ arns m, b.list_clusters = Outcome.ok arns →
         ecsLoopPure b arns [] = Except.error m →
         lookupEntry (runGenData b) "ecs" = some (plainError m)) ∧
       (∀ m, b.list_instances_sso = Outcome.exn m →
         lookupEntry (runGenData b) "iam_identity_center" =
           some (ssoErr m))) := by
  intro b ident hb hs
  simp only [runGenData, runGen_ok_nf b ident hb hs, SetupRes.gen]
  refine ⟨?_, ?_, ?_, ?_, ?_, ?_, ?_, ?_, ?_, ?_, ?_, ?_, ?_, ?_, ?_,
    ?_, ?_, ?_, ?_, ?_, ?_, ?_⟩
  · simp [collectData, registryKeys]
  · intro m hm
    simp [collectData, lookupEntry, accountSummaryEntry, hm]
  · intro i m hi hm
    simp [collectData, lookupEntry, accountSummaryEntry, hi, hm]
  · intro m hm
    simp [collectData, lookupEntry, organizationsEntry, hm]
  · intro m hm
    simp [collectData, lookupEntry, organizationsEntry, hm]
  · intro m hm
    simp [collectData, lookupEntry, simpleEntry, hm]
  · intro m hm
    simp [collectData, lookupEntry, vpcSummaryEntry, hm]
  · intro v m hv hm
    simp [collectData, lookupEntry, vpcSummaryEntry, hv, hm]
  · intro v n m hv hn hm
    simp [collectData, lookupEntry, vpcSummaryEntry, hv, hn, hm]
  · intro m hm
    simp [collectData, lookupEntry, simpleEntry, hm]
  · intro m hm
    simp [collectData, lookupEntry, simpleEntry, hm]
  · intro m hm
    simp [collectData, lookupEntry, simpleEntry, hm]
  · intro m hm
    simp [collectData, lookupEntry, simpleEntry, hm]
  · intro m hm
    simp [collectData, lookupEntry, simpleEntry, hm]
  · intro m hm
    simp [collectData, lookupEntry, simpleEntry, hm]
  · intro m hm
    simp [collectData, lookupEntry, simpleEntry, hm]
  · intro m hm
    simp [collectData, lookupEntry, simpleEntry, hm]
  · intro m hm
    simp [collectData, lookupEntry, simpleEntry, hm]
  · intro m hm
    simp [collectData, lookupEntry, simpleEntry, hm]
  · intro m hm
    simp [collectData, lookupEntry, ecsEntry, hm]
  · intro arns m ha hm
    simp [collectData, lookupEntry, ecsEntry, ha, hm]
  · intro m hm
    simp [collectData, lookupEntry, simpleEntry, hm]

/-- Witness for C2: the concrete run whose EC2 collector raises records
the error in its own slot. -/
theorem claim2_collector_failure_isolation_witness :
    bEc2Denied.NoHang ∧
    lookupEntry (runGenData bEc2Denied) "ec2_instances" =
      some (plainError
        "An error occurred (UnauthorizedOperation) when calling the DescribeInstances operation") :=
  ⟨bEc2Denied_noHang,
   (claim2_collector_failure_isolation bEc2Denied identOk
      bEc2Denied_noHang rfl).2.2.2.2.2.2.2.2.2.2.1 _ rfl⟩

/-- C3: over a whole terminating run exactly one session creation (one
credential resolution) ever happens, and every provider call of the run
is made with that one cached session. -/
theorem claim3_credentials_resolved_once :
    ∀ b : Behavior, b.NoHang →
      (runGenTrace b).countP isSessionCreate = 1 ∧
      (∀ sv op sid, Ev.call sv op sid ∈ runGenTrace b → sid = 1) := by
  intro b hb
  cases hsi : b.setup_identity with
  | hang => exact absurd hsi hb.1
  | exn m =>
    simp only [runGenTrace, runGen_failed_nf b m hsi, SetupRes.gen]
    constructor
    · decide
    · intro sv op sid hm
      simp [setupTrace] at hm
      exact hm.2.2
  | ok ident =>
    have hct := collectTrace_runEv b
    simp only [runGenTrace, runGen_ok_nf b ident hb hsi, SetupRes.gen]
    constructor
    · rw [List.countP_append, countP_sc_of_runEv hct]
      decide
    · intro sv op sid hm
      rcases List.mem_append.mp hm with hm | hm
      · simp [setupTrace] at hm
        exact hm.2.2
      · exact call_sid_of_runEv hct sv op sid hm

/-- Witness for C3 at the concrete all-succeeding behavior. -/
theorem claim3_credentials_resolved_once_witness :
    bOk.NoHang ∧ (runGenTrace bOk).countP isSessionCreate = 1 :=
  ⟨bOk_noHang, (claim3_credentials_resolved_once bOk bOk_noHang).1⟩

/-- C5 counterexample: the failure the EC2 collector records is a bare
`error` message dict with no `kind` field from the closed set — a
consumer can only branch on message text. -/
theorem claim5_counterexample :
    lookupEntry (runGenData bEc2Denied) "ec2_instances" =
      some (plainError
        "An error occurred (UnauthorizedOperation) when calling the DescribeInstances operation") ∧
    entryCarriesKind (plainError
      "An error occurred (UnauthorizedOperation) when calling the DescribeInstances operation") =
      false :=
  ⟨by decide, by decide⟩

/-- C5 amended: no entry a completed run records ever carries an error
kind from the spec's closed set; failures are recorded untyped — a bare
stringified message under `error` (organizations maps its
not-in-use client error to a status note, control tower adds a status
field beside the message). -/
theorem claim5_amended_untyped_error_entries :
    ∀ (b : Behavior) (ident : Identity), b.NoHang →
      b.setup_identity = Outcome.ok ident →
      ((∀ p ∈ runGenData b, entryCarriesKind p.2 = false) ∧
       (∀ m, b.describe_instances = Outcome.exn m →
         lookupEntry (runGenData b) "ec2_instances" =
           some (plainError m)) ∧
       (b.describe_organization = OrgResp.notInUse →
         lookupEntry (runGenData b) "organizations" =
           some [("status", EVal.v (Val.s "Não está em uma organização"))]) ∧
       (∀ m, b.list_landing_zones = Outcome.exn m →
         lookupEntry (runGenData b) "control_tower" = some (ctErr m))) := by
  intro b ident hb hs
  simp only [runGenData, runGen_ok_nf b ident hb hs, SetupRes.gen]
  refine ⟨?_, ?_, ?_, ?_⟩
  · intro p hp
    simp only [collectData, List.mem_cons, List.not_mem_nil, or_false]
      at hp
    rcases hp with rfl | rfl | rfl | rfl | rfl | rfl | rfl | rfl | rfl |
      rfl | rfl | rfl | rfl | rfl | rfl | rfl <;>
      simp [eck_accountSummary, eck_organizations, eck_vpc, eck_ecs,
        eck_simple eck_ctEntry eck_ctErr,
        eck_simple eck_route53Entry eck_plainError,
        eck_simple eck_ec2Entry eck_plainError,
        eck_simple eck_rdsEntry eck_plainError,
        eck_simple eck_apiGatewayEntry eck_plainError,
        eck_simple eck_cloudfrontEntry eck_plainError,
        eck_simple eck_lambdaEntry eck_plainError,
        eck_simple eck_snsEntry eck_plainError,
        eck_simple eck_backupEntry eck_plainError,
        eck_simple eck_eventbridgeEntry eck_plainError,
        eck_simple eck_loadBalancersEntry eck_plainError,
        eck_simple eck_ssoEntry eck_ssoErr]
  · intro m hm
    simp [collectData, lookupEntry, simpleEntry, hm]
  · intro hm
    simp [collectData, lookupEntry, organizationsEntry, hm]
  · intro m hm
    simp [collectData, lookupEntry, simpleEntry, hm]

/-- Witness for the amended C5 at the concrete all-succeeding run. -/
theorem claim5_amended_untyped_error_entries_witness :
    bOk.NoHang ∧ (∀ p ∈ runGenData bOk, entryCarriesKind p.2 = false) :=
  ⟨bOk_noHang,
   (claim5_amended_untyped_error_entries bOk identOk bOk_noHang rfl).1⟩

/-- When the sixth collector's provider call hangs (and the calls before
it return), the whole pipeline hangs with only the first five entries
collected. -/
theorem runGen_hang_at_ec2 :
    ∀ (b : Behavior) (ident : Identity),
      b.setup_identity = Outcome.ok ident →
      b.summary_identity ≠ Outcome.hang →
      b.list_account_aliases ≠ Outcome.hang →
      b.describe_organization ≠ OrgResp.hang →
      b.list_landing_zones ≠ Outcome.hang →
      b.describe_vpcs ≠ Outcome.hang →
      b.describe_subnets ≠ Outcome.hang →
      b.describe_vpc_peering_connections ≠ Outcome.hang →
      b.list_hosted_zones ≠ Outcome.hang →
      b.describe_instances = Outcome.hang →
      ∃ g : Gen, runGen b = SetupRes.hung g ∧ g.data = dataBeforeEc2 b := by
  intro b ident hs h2 h3 h4 h5 h6 h7 h8 h9 hh
  simp only [runGen, setup_aws_session, Gen.init, Gen.callEv, Gen.emit,
    hs]
  simp only [collect_all_data, collection_methods]
  rw [runMethods_cons (collect_account_summary_step h2 h3),
      runMethods_cons (collect_organizations_step h4),
      runMethods_cons (collect_control_tower_step h5),
      runMethods_cons (collect_vpc_summary_step h6 h7 h8),
      runMethods_cons (collect_route53_step h9)]
  simp only [runMethods, collect_ec2_instances, simpleCollect, hh,
    Gen.callEv, Gen.emit]
  refine ⟨_, rfl, ?_⟩
  simp [setKey, dataBeforeEc2]

/-- C8 counterexample: an EC2 describe call that never returns leaves
the run hung — the task reaches no terminal state, only the five
collectors before EC2 ever ran, and the entry point never exits; no
timed-out marking exists. -/
theorem claim8_counterexample :
    (runGen bEc2Hang).isHung = true ∧
    (runGenData bEc2Hang).map Prod.fst = List.take 5 registryKeys ∧
    mainExit bEc2Hang iNow false = none := by
  refine ⟨by decide, by decide, by decide⟩

/-- C8 amended: no task timeout exists — whenever the EC2 provider call
never returns (and the calls scheduled before it return), the whole run
blocks forever: the pipeline hangs, only the first five collectors'
slots were filled, and the process never reaches an exit. -/
theorem claim8_amended_no_timeout_run_hangs :
    ∀ (b : Behavior) (ident : Identity) (now : Instant) (logo : Bool),
      b.setup_identity = Outcome.ok ident →
      b.summary_identity ≠ Outcome.hang →
      b.list_account_aliases ≠ Outcome.hang →
      b.describe_organization ≠ OrgResp.hang →
      b.list_landing_zones ≠ Outcome.hang →
      b.describe_vpcs ≠ Outcome.hang →
      b.describe_subnets ≠ Outcome.hang →
      b.describe_vpc_peering_connections ≠ Outcome.hang →
      b.list_hosted_zones ≠ Outcome.hang →
      b.describe_instances = Outcome.hang →
      ((runGen b).isHung = true ∧
       (runGenData b).map Prod.fst = List.take 5 registryKeys ∧
       mainExit b now logo = none) := by
  intro b ident now logo hs h2 h3 h4 h5 h6 h7 h8 h9 hh
  obtain ⟨g, hg, hd⟩ :=
    runGen_hang_at_ec2 b ident hs h2 h3 h4 h5 h6 h7 h8 h9 hh
  have htake : List.take 5 registryKeys =
      ["account_summary", "organizations", "control_tower",
       "vpc_summary", "route53"] := rfl
  refine ⟨?_, ?_, ?_⟩
  · rw [hg]; rfl
  · rw [runGenData, hg]
    simp [SetupRes.gen, hd, dataBeforeEc2, htake]
  · simp [mainExit, run, hg]

/-- Witness for the amended C8 at the concrete hanging behavior. -/
theorem claim8_amended_no_timeout_run_hangs_witness :
    (runGen bEc2Hang).isHung = true ∧
    mainExit bEc2Hang iNow false = none := by
  have h := claim8_amended_no_timeout_run_hangs bEc2Hang identOk iNow
    false rfl (by decide) (by decide) (by decide) (by decide)
    (by decide) (by decide) (by decide) (by decide) rfl
  exact ⟨h.1, h.2.2⟩

/-- C9 counterexample: the concrete run's event trace is accepted by the
seriality scanner — collector execution is fully serial, contradicting
the claimed bounded-concurrent execution (which excludes fully serial
scheduling); no worker pool or concurrency limit exists in the code. -/
theorem claim9_counterexample : serialTrace (runGenTrace bOk) := by
  decide

/-- C9 amended: every terminating run is fully serial — the single
task's collectors execute strictly one after another in registration
order, each finishing before the next starts; there is no worker pool
and no `maxConcurrency`. -/
theorem claim9_amended_fully_serial :
    ∀ b : Behavior, b.NoHang → serialTrace (runGenTrace b) := by
  intro b hb
  cases hsi : b.setup_identity with
  | hang => exact absurd hsi hb.1
  | exn m =>
    simp only [runGenTrace, runGen_failed_nf b m hsi, SetupRes.gen]
    decide
  | ok ident =>
    have ha := foldl_scan_seg (segEv_account b)
    have hv := foldl_scan_seg (segEv_vpc b)
    have he := foldl_scan_seg (segEv_ecs b)
    simp only [runGenTrace, runGen_ok_nf b ident hb hsi, SetupRes.gen]
    simp [serialTrace, setupTrace, collectTrace, List.foldl_append,
      scanStep, ha, hv, he]

/-- Witness for the amended C9 at a concrete partially failing run. -/
theorem claim9_amended_fully_serial_witness :
    bEc2Denied.NoHang ∧ serialTrace (runGenTrace bEc2Denied) :=
  ⟨bEc2Denied_noHang,
   claim9_amended_fully_serial bEc2Denied bEc2Denied_noHang⟩

end Runbook
